import Mathlib

/-!
# Verification of the email agent pipeline (src/agent.py)

Shallow embedding of the agent's core pipeline:

* `parse_email_body`  — MIME body extraction (agent.py lines 61–88),
* `send_reply`        — threaded reply composition (lines 90–104; the SMTP
  delivery itself is external and caught locally, so only the composed
  message is modelled),
* `decode_subject`    — subject header decoding (lines 115–124),
* `get_gemini_response` — generation client adapter (lines 42–57),
* `processMessage` / `check_emails` — the per-message body of the poll-cycle
  loop (lines 151–194) and the loop itself.

External collaborators (the codec registry used by `bytes.decode`, the
stdlib header splitter `email.header.decode_header`, the address parser
`email.utils.parseaddr`, and the generation service) are modelled as an
explicit environment `MailEnv` / per-message service behaviour.  Python
exceptions are modelled with `Except Unit`: `Except.error ()` at a call
site means the Python call raised there.
-/

namespace EmailAgent

/-- One chunk produced by `email.header.decode_header`: either an undecoded
plain string segment, or a byte segment tagged with its (optional) declared
charset. -/
inductive HChunk where
  | str (s : String)
  | bytes (b : List Nat) (charset : Option String)
deriving DecidableEq

/-- The external environment of the pipeline.

* `lookup cs` models Python codec lookup for `bytes.decode(cs, errors='ignore')`:
  `none` means the charset name is unknown (the call raises `LookupError`),
  `some d` gives the codec's lenient (`errors='ignore'`) decoder, which is a
  total function — with the ignore handler a known codec never fails on any
  byte sequence, it drops undecodable subsequences.
* `utf8` is the decoder of the always-registered default codec, with
  `lookup_utf8` recording that `lookup "utf-8"` returns exactly it.
* `decodeHeader` models `email.header.decode_header` applied to the raw
  Subject header value (`none` when the header is absent): `Except.error ()`
  means the stdlib call raised (`decode_header(None)` raises `TypeError`).
* `parseaddr h` models `email.utils.parseaddr(h)[1]`, the bare address part;
  the stdlib function is total on any input (it returns `""` on junk). -/
structure MailEnv where
  lookup : String → Option (List Nat → String)
  utf8 : List Nat → String
  lookup_utf8 : lookup "utf-8" = some utf8
  decodeHeader : Option String → Except Unit (List HChunk)
  parseaddr : Option String → String

/-- The agent's configuration: the `EMAIL_ADDRESS` environment variable,
read once at startup. -/
structure Config where
  emailAddress : String
deriving DecidableEq

/-- A parsed MIME message / part, as the `email` package presents it:
`msg.is_multipart()` tells leaves from containers, every part carries its
declared content type, content-disposition header and charset, and
`get_payload(decode=True)` yields the transfer-decoded raw bytes of a leaf
(and `None` on a container). -/
inductive MimeMsg where
  | leaf (ctype : String) (cdispo : Option String) (charset : Option String)
      (payload : List Nat)
  | multipart (ctype : String) (cdispo : Option String) (children : List MimeMsg)

/-- `msg.is_multipart()`. -/
def MimeMsg.isMultipart : MimeMsg → Bool
  | .multipart _ _ _ => true
  | .leaf _ _ _ _ => false

/-- `part.get_content_type()`. -/
def MimeMsg.ctype : MimeMsg → String
  | .leaf ct _ _ _ => ct
  | .multipart ct _ _ => ct

/-- `part.get("Content-Disposition")` (`none` when the header is absent). -/
def MimeMsg.cdispo : MimeMsg → Option String
  | .leaf _ cd _ _ => cd
  | .multipart _ cd _ => cd

mutual

/-- `msg.walk()`: the part itself first, then every subpart recursively, in
document order (preorder). -/
def walk : MimeMsg → List MimeMsg
  | .leaf ct cd ch pl => [.leaf ct cd ch pl]
  | .multipart ct cd cs => .multipart ct cd cs :: walkList cs

/-- `walk` mapped over a list of sibling parts, concatenated in order. -/
def walkList : List MimeMsg → List MimeMsg
  | [] => []
  | c :: cs => walk c ++ walkList cs

end

/-- Python's substring test `needle in hay`, on character lists. -/
def subList (needle : List Char) : List Char → Bool
  | [] => needle.isEmpty
  | c :: t => needle.isPrefixOf (c :: t) || subList needle t

/-- Python's substring test `needle in hay` on strings. -/
def containsSub (needle hay : String) : Bool :=
  subList needle.toList hay.toList

/-- Python `str(x)` on an optional header value: `str(None)` is `"None"`. -/
def pyStrOfOpt : Option String → String
  | none => "None"
  | some s => s

/-- The characters stripped by Python's `str.strip()`: exactly the code
points on which `str.isspace()` is true — U+0009–U+000D (tab, newline,
vertical tab, form feed, carriage return), the separators U+001C–U+001F,
space, NEL U+0085, no-break space U+00A0, U+1680, the typographic spaces
U+2000–U+200A, the line and paragraph separators U+2028 and U+2029, and
U+202F, U+205F, U+3000. -/
def isSpaceChar (c : Char) : Bool :=
  (0x09 ≤ c.toNat && c.toNat ≤ 0x0d) ||
  (0x1c ≤ c.toNat && c.toNat ≤ 0x1f) ||
  c.toNat == 0x20 || c.toNat == 0x85 || c.toNat == 0xa0 ||
  c.toNat == 0x1680 ||
  (0x2000 ≤ c.toNat && c.toNat ≤ 0x200a) ||
  c.toNat == 0x2028 || c.toNat == 0x2029 || c.toNat == 0x202f ||
  c.toNat == 0x205f || c.toNat == 0x3000

/-- Python's `s.strip()`: drop leading and trailing whitespace. -/
def pyStrip (s : String) : String :=
  String.mk (((s.toList.dropWhile isSpaceChar).reverse.dropWhile isSpaceChar).reverse)

/-- Python's `s.lower()` on the ASCII addresses used here. -/
def pyLower (s : String) : String :=
  String.mk (s.toList.map Char.toLower)

/-- The selection test of agent.py line 70: the part's declared content type
is `text/plain` and the string of its content-disposition does not contain
`attachment`. -/
def isPlainNonAttachment (p : MimeMsg) : Bool :=
  p.ctype == "text/plain" && !(containsSub "attachment" (pyStrOfOpt p.cdispo))

/-- The decoded text of a leaf part, per agent.py lines 73–78: decode the
payload with the declared charset (default `utf-8`), `errors='ignore'`; when
the charset is unknown the raised `LookupError` is caught and the payload is
decoded with the default codec instead (`decode(errors='ignore')`). -/
def decodeLeaf (menv : MailEnv) (charset : Option String) (payload : List Nat) :
    String :=
  match menv.lookup (charset.getD "utf-8") with
  | some d => d payload
  | none => menv.utf8 payload

/-- The `try`/`except` of agent.py lines 71–78 applied to one matched part.
On a leaf this always succeeds (`decodeLeaf`).  On a multipart container
`get_payload(decode=True)` is `None`, so `.decode` raises `AttributeError`
both in the `try` and again in the `except` fallback, and the second raise
propagates. -/
def tryDecode (menv : MailEnv) : MimeMsg → Except Unit String
  | .leaf _ _ ch pl => .ok (decodeLeaf menv ch pl)
  | .multipart _ _ _ => .error ()

/-- agent.py lines 61–88, `parse_email_body(msg)`.

Multipart branch: walk all parts in document order and return the decoded
text of the first part passing `isPlainNonAttachment`; after the loop (no
matching part) return `None`.  Single-part branch: decode the payload with
the declared charset (default `utf-8`, `errors='ignore'`); any exception
(unknown charset) is caught and `None` is returned. -/
def parse_email_body (menv : MailEnv) (msg : MimeMsg) :
    Except Unit (Option String) :=
  match msg with
  | .multipart ct cd cs =>
    match (walk (.multipart ct cd cs)).find? isPlainNonAttachment with
    | some part =>
      match tryDecode menv part with
      | .ok s => .ok (some s)
      | .error e => .error e
    | none => .ok none
  | .leaf _ _ ch pl =>
    match menv.lookup (ch.getD "utf-8") with
    | some d => .ok (some (d pl))
    | none => .ok none

/-- The fixed placeholder returned by `get_gemini_response` when the service
answered but withheld the content (agent.py line 52). -/
def blockedNotice : String :=
  "Niestety, nie mogę wygenerować odpowiedzi na ten temat (odpowiedź zablokowana)."

/-- A successful response of the generation service: its list of content
parts. -/
structure GenResponse where
  parts : List String
deriving DecidableEq

/-- `response.text`: the concatenated text of the response's parts. -/
def GenResponse.text (r : GenResponse) : String :=
  String.join r.parts

/-- agent.py lines 42–57, `get_gemini_response(prompt)`.  `svc` is the
external service call: `Except.error ()` models any raised exception
(network, auth, quota, malformed response), which the function catches,
returning `None`; an empty `parts` list on a successful response (safety
block) yields the fixed placeholder; otherwise `response.text` is
returned. -/
def get_gemini_response (svc : String → Except Unit GenResponse)
    (prompt : String) : Option String :=
  match svc prompt with
  | .error _ => none
  | .ok r => if r.parts.isEmpty then some blockedNotice else some r.text

/-- The reply message composed by `send_reply` and handed to the SMTP
transport. -/
structure OutMsg where
  fromAddr : String
  toAddr : String
  subject : String
  inReplyTo : Option String
  references : Option String
  body : String
deriving DecidableEq

/-- agent.py lines 90–104, the composition part of
`send_reply(to_address, subject, original_msg_id, body)`.  The actual SMTP
delivery (lines 107–113) is wrapped in its own `try`/`except`, so a delivery
failure is logged and never alters control flow; only the composed message
matters to the pipeline. -/
def send_reply (cfg : Config) (to_address subject : String)
    (original_msg_id : Option String) (body : String) : OutMsg :=
  { fromAddr := cfg.emailAddress
    toAddr := to_address
    subject := "Re: " ++ subject
    inReplyTo := original_msg_id
    references := original_msg_id
    body := body }

/-- The accumulation loop of `decode_subject` (agent.py lines 118–123):
`subject_str += part` for string chunks, and
`subject_str += part.decode(charset or 'utf-8', errors='ignore')` for byte
chunks — where an unknown charset raises `LookupError`, uncaught. -/
def decodeChunks (menv : MailEnv) (acc : String) :
    List HChunk → Except Unit String
  | [] => .ok acc
  | .str s :: cs => decodeChunks menv (acc ++ s) cs
  | .bytes b cset :: cs =>
    match menv.lookup (cset.getD "utf-8") with
    | none => .error ()
    | some d => decodeChunks menv (acc ++ d b) cs

/-- agent.py lines 115–124, `decode_subject(subject)`: split the raw header
with `decode_header` (which raises on a `None` header), decode and
concatenate all chunks, then `subject_str.strip() or "Brak tematu"`.  The
function body has no `try`/`except`: any raise propagates to the caller. -/
def decode_subject (menv : MailEnv) (subject : Option String) :
    Except Unit String :=
  match menv.decodeHeader subject with
  | .error e => .error e
  | .ok chunks =>
    match decodeChunks menv "" chunks with
    | .error e => .error e
    | .ok s => .ok (if pyStrip s = "" then "Brak tematu" else pyStrip s)

/-- One fetched inbound message as the per-message loop sees it: the raw
`From`, `Subject` and `Message-ID` header values and the parsed MIME
structure. -/
structure PyMsg where
  fromH : Option String
  subjectH : Option String
  msgId : Option String
  mime : MimeMsg

/-- The per-message inputs of one loop iteration: `fetched = none` models
`mail.fetch` returning a non-OK status (the loop `continue`s), and `gen` is
the behaviour of the generation service for this message's (single possible)
call. -/
structure MsgCase where
  fetched : Option PyMsg
  gen : String → Except Unit GenResponse

/-- The observable trace of one loop iteration: the prompts passed to the
generation client (zero or one), the replies composed and handed to SMTP
(zero or one), and whether `mail.store(mail_id, '+FLAGS', '(\Seen)')` was
executed for this message. -/
structure MsgOutcome where
  genCalls : List String
  sent : List OutMsg
  markedSeen : Bool
deriving DecidableEq

/-- agent.py lines 151–194, the body of the per-message loop.

Order as in the source: fetch check (`continue` on failure — no mark-seen);
`parseaddr(msg['From'])[1]`; `decode_subject(msg['Subject'])` (may raise —
`Except.error`, which aborts the iteration before the mark-seen store);
the self-sender guard; `parse_email_body` (may raise); `if not prompt`;
`get_gemini_response(prompt.strip())`; `if gemini_answer` then `send_reply`;
finally the unconditional mark-seen of line 194.  Python truthiness: both
`None` and `""` fail `if not prompt` / `if gemini_answer`. -/
def processMessage (menv : MailEnv) (cfg : Config) (c : MsgCase) :
    Except Unit MsgOutcome :=
  match c.fetched with
  | none => .ok { genCalls := [], sent := [], markedSeen := false }
  | some m =>
    match decode_subject menv m.subjectH with
    | .error e => .error e
    | .ok subject =>
      if menv.parseaddr m.fromH = cfg.emailAddress then
        .ok { genCalls := [], sent := [], markedSeen := true }
      else
        match parse_email_body menv m.mime with
        | .error e => .error e
        | .ok none => .ok { genCalls := [], sent := [], markedSeen := true }
        | .ok (some prompt) =>
          if prompt = "" then
            .ok { genCalls := [], sent := [], markedSeen := true }
          else
            match get_gemini_response c.gen (pyStrip prompt) with
            | none =>
              .ok { genCalls := [pyStrip prompt], sent := [], markedSeen := true }
            | some answer =>
              if answer = "" then
                .ok { genCalls := [pyStrip prompt], sent := [], markedSeen := true }
              else
                .ok { genCalls := [pyStrip prompt]
                      sent := [send_reply cfg (menv.parseaddr m.fromH) subject
                                 m.msgId answer]
                      markedSeen := true }

/-- The `for mail_id in mail_ids` loop of agent.py lines 151–194.  Returns
the outcomes of the iterations that ran to completion and a flag telling
whether an uncaught exception aborted the loop (to be caught only at the
cycle boundary, line 198): after an abort no further message is processed
and no further outcome — in particular no mark-seen — is produced. -/
def check_emails (menv : MailEnv) (cfg : Config) :
    List MsgCase → List MsgOutcome × Bool
  | [] => ([], false)
  | c :: rest =>
    match processMessage menv cfg c with
    | .error _ => ([], true)
    | .ok o =>
      let r := check_emails menv cfg rest
      (o :: r.1, r.2)

/-- Lenient single-byte decoding covering the ASCII fragment of
`errors='ignore'` decoding: every byte below 128 maps to its character,
other bytes are dropped.  On the pure-ASCII payloads used in the concrete
messages below this agrees exactly with Python's UTF-8 `ignore` decoding. -/
def asciiIgnore (bs : List Nat) : String :=
  String.mk (bs.filterMap fun b => if b < 128 then some (Char.ofNat b) else none)

/-- A concrete codec registry knowing only the default codec. -/
def stdLookup : String → Option (List Nat → String) :=
  fun cs => if cs = "utf-8" then some asciiIgnore else none

/-- Model of `email.header.decode_header` on the header values used in this
development: `decode_header(None)` raises `TypeError` (the argument reaches
`re.search`, which rejects `None`), and a string containing no RFC 2047
encoded word is returned unchanged as a single undecoded `str` chunk.  All
concrete subjects below are of these two shapes. -/
def stdDecodeHeader : Option String → Except Unit (List HChunk)
  | none => .error ()
  | some s => .ok [HChunk.str s]

/-- Model of `email.utils.parseaddr(h)[1]` on the address forms used in the
concrete messages below: a missing header yields `""`, `Name <addr>` yields
`addr`, and a bare address is returned unchanged. -/
def stdParseaddr : Option String → String
  | none => ""
  | some s =>
    if s.toList.contains '<' then
      String.mk (((s.toList.dropWhile (· ≠ '<')).drop 1).takeWhile (· ≠ '>'))
    else s

/-- The concrete environment used by witnesses and counterexamples. -/
def stdEnv : MailEnv where
  lookup := stdLookup
  utf8 := asciiIgnore
  lookup_utf8 := rfl
  decodeHeader := stdDecodeHeader
  parseaddr := stdParseaddr

/-- A concrete agent configuration. -/
def agentCfg : Config := { emailAddress := "agent@example.com" }

/-- A poisoned inbound message: its Subject header is absent, so
`decode_header(None)` raises. -/
def noSubjectMsg : PyMsg where
  fromH := some "alice@example.com"
  subjectH := none
  msgId := some "<p@host>"
  mime := MimeMsg.leaf "text/plain" none none [104, 105]

/-- The poisoned message paired with a healthy generation service. -/
def noSubjectCase : MsgCase where
  fetched := some noSubjectMsg
  gen := fun _ => .ok { parts := ["4"] }

/-- A healthy single-part message from an ordinary sender; its payload is
the bytes of `"hi"`. -/
def goodMsg : PyMsg where
  fromH := some "bob@example.com"
  subjectH := some "Hello"
  msgId := some "<x@host>"
  mime := MimeMsg.leaf "text/plain" none none [104, 105]

/-- The healthy message with a service answering `"4"`. -/
def goodCase : MsgCase where
  fetched := some goodMsg
  gen := fun _ => .ok { parts := ["4"] }

/-- A message whose sender is the agent's own configured address. -/
def selfMsg : PyMsg where
  fromH := some "agent@example.com"
  subjectH := some "Ping"
  msgId := some "<s@host>"
  mime := MimeMsg.leaf "text/plain" none none [104, 105]

/-- The self-sent message with a healthy service. -/
def selfCase : MsgCase where
  fetched := some selfMsg
  gen := fun _ => .ok { parts := ["4"] }

/-- A message whose sender differs from the agent's configured address only
in letter case. -/
def caseMsg : PyMsg where
  fromH := some "Agent@Example.COM"
  subjectH := some "Hello"
  msgId := some "<y@host>"
  mime := MimeMsg.leaf "text/plain" none none [104, 105]

/-- The case-differing message with a service answering `"ok"`. -/
def caseCase : MsgCase where
  fetched := some caseMsg
  gen := fun _ => .ok { parts := ["ok"] }

/-- The healthy message, but the service succeeds with no usable parts
(safety block). -/
def blockedCase : MsgCase where
  fetched := some goodMsg
  gen := fun _ => .ok { parts := [] }

/-- The healthy message, but the service call raises (transport failure). -/
def failCase : MsgCase where
  fetched := some goodMsg
  gen := fun _ => .error ()

/-- A multipart message: an HTML part first, then an inline text/plain part
with payload `"hi"`, then a text/plain attachment with payload `"z"`. -/
def multiEx : MimeMsg :=
  .multipart "multipart/alternative" none
    [ .leaf "text/html" none none [60, 112, 62],
      .leaf "text/plain" (some "inline") none [104, 105],
      .leaf "text/plain" (some "attachment; filename=a.txt") none [122] ]

/-- C5: every reply composed by `send_reply` threads correctly: its
In-Reply-To and References headers both equal the original message
identifier, its Subject is `"Re: "` prepended to the decoded original
subject, its From is the agent's configured address and its To is the
original sender. -/
theorem send_reply_headers (cfg : Config) (rcpt subj : String)
    (mid : Option String) (body : String) :
    (send_reply cfg rcpt subj mid body).inReplyTo = mid ∧
    (send_reply cfg rcpt subj mid body).references = mid ∧
    (send_reply cfg rcpt subj mid body).subject = "Re: " ++ subj ∧
    (send_reply cfg rcpt subj mid body).fromAddr = cfg.emailAddress ∧
    (send_reply cfg rcpt subj mid body).toAddr = rcpt :=
  ⟨rfl, rfl, rfl, rfl, rfl⟩

/-- C1 (code bug): a poll cycle over a single fetched message whose Subject
header is absent: `decode_subject` raises inside the loop before the
mark-seen store, the loop aborts with no outcome recorded, and the fetched
message is never marked seen — so it is refetched as unseen by every later
cycle, exactly the infinite reprocessing the invariant is meant to
prevent. -/
theorem missing_subject_never_marked_seen :
    check_emails stdEnv agentCfg [noSubjectCase] = ([], true) := rfl

/-- C4 (code bug): an error raised while decoding the first message's
subject aborts the whole per-message loop: with a healthy second message
behind the poisoned first one the cycle produces no outcomes at all, while
the same healthy message alone is processed to completion (prompt `"hi"`
sent to generation, reply `"4"` composed, message marked seen). -/
theorem poisoned_message_aborts_rest :
    check_emails stdEnv agentCfg [noSubjectCase, goodCase] = ([], true) ∧
    check_emails stdEnv agentCfg [goodCase] =
      ([{ genCalls := ["hi"],
          sent := [send_reply agentCfg "bob@example.com" "Hello"
                     (some "<x@host>") "4"],
          markedSeen := true }], false) := by
  constructor
  · rfl
  · rfl

/-- C8 (counterexample): body extraction does not trim: a single-part
message whose payload is the bytes of `" hi "` extracts to `" hi "`, which
still carries its leading and trailing whitespace. -/
theorem extraction_not_trimmed :
    parse_email_body stdEnv
        (MimeMsg.leaf "text/plain" none none [32, 104, 105, 32]) =
      Except.ok (some " hi ") ∧
    pyStrip " hi " ≠ " hi " := by
  constructor
  · rfl
  · decide

/-- C9 (counterexample): subject decoding is not the identity on every plain
ASCII subject without encoded segments: the subject `" hi "` decodes to its
stripped form `"hi"`. -/
theorem decode_subject_not_id :
    decode_subject stdEnv (some " hi ") = Except.ok "hi" ∧
    (" hi " : String) ≠ "hi" := by
  constructor
  · rfl
  · decide

/-- C9 (amended): for a plain subject with no encoded segments (the stdlib
splitter returns the single undecoded chunk), subject decoding is the
identity exactly when the subject is nonempty and carries no leading or
trailing whitespace; in general it returns the stripped subject, and the
fixed placeholder `"Brak tematu"` when the stripped subject is empty. -/
theorem decode_subject_strips_and_defaults (menv : MailEnv) (s : String)
    (hdh : menv.decodeHeader (some s) = Except.ok [HChunk.str s]) :
    (pyStrip s = s → s ≠ "" → decode_subject menv (some s) = Except.ok s) ∧
    (pyStrip s ≠ "" → decode_subject menv (some s) = Except.ok (pyStrip s)) ∧
    (pyStrip s = "" → decode_subject menv (some s) = Except.ok "Brak tematu") := by
  have h0 : ("" ++ s : String) = s := rfl
  refine ⟨?_, ?_, ?_⟩
  · intro ht hne
    simp only [decode_subject, hdh, decodeChunks]
    rw [h0, ht, if_neg hne]
  · intro hne
    simp only [decode_subject, hdh, decodeChunks]
    rw [h0, if_neg hne]
  · intro he
    simp only [decode_subject, hdh, decodeChunks]
    rw [h0, if_pos he]

/-- C9 witness: the already-stripped plain subject `"Hello"` decodes to
itself, the untrimmed `" hi "` decodes to its stripped form `"hi"`, and the
whitespace-only `"  "` decodes to the placeholder. -/
theorem decode_subject_strips_and_defaults_witness :
    decode_subject stdEnv (some "Hello") = Except.ok "Hello" ∧
    decode_subject stdEnv (some " hi ") = Except.ok "hi" ∧
    decode_subject stdEnv (some "  ") = Except.ok "Brak tematu" := by
  refine ⟨(decode_subject_strips_and_defaults stdEnv "Hello" rfl).1 rfl
    (by decide), ?_, ?_⟩
  · have h := (decode_subject_strips_and_defaults stdEnv " hi " rfl).2.1
      (by decide)
    have e : pyStrip " hi " = "hi" := by decide
    rw [e] at h
    exact h
  · exact (decode_subject_strips_and_defaults stdEnv "  " rfl).2.2 (by decide)

/-- C2: for every fetched message whose parsed sender address equals the
agent's configured address, the loop iteration performs no generation call
and composes no reply: it either aborts while decoding the subject — which
happens before the guard and before any generation or send — or it
completes with an empty call trace, marked seen. -/
theorem self_sender_skips (menv : MailEnv) (cfg : Config) (c : MsgCase)
    (m : PyMsg) (hf : c.fetched = some m)
    (hs : menv.parseaddr m.fromH = cfg.emailAddress) :
    processMessage menv cfg c = Except.error () ∨
    processMessage menv cfg c =
      Except.ok { genCalls := [], sent := [], markedSeen := true } := by
  simp only [processMessage, hf]
  cases hd : decode_subject menv m.subjectH with
  | error e => simp only [hd]; left; trivial
  | ok subj => simp only [hd]; right; rw [if_pos hs]

/-- C2 witness: the self-sent message is skipped with an empty trace. -/
theorem self_sender_skips_witness :
    processMessage stdEnv agentCfg selfCase = Except.error () ∨
    processMessage stdEnv agentCfg selfCase =
      Except.ok { genCalls := [], sent := [], markedSeen := true } :=
  self_sender_skips stdEnv agentCfg selfCase selfMsg rfl rfl

/-- C3: for a multipart message, body extraction returns the decoded text of
the first walked part (document order, nested multiparts included) whose
declared content type is text/plain and whose content-disposition does not
contain "attachment"; the selected part satisfies that test, so the content
of an attachment or of an HTML part is never returned; and when no part
matches, extraction returns absent. -/
theorem multipart_first_plain (menv : MailEnv) (msg : MimeMsg)
    (hm : msg.isMultipart = true) :
    (∀ ct cd ch pl,
        (walk msg).find? isPlainNonAttachment =
          some (MimeMsg.leaf ct cd ch pl) →
        parse_email_body menv msg = Except.ok (some (decodeLeaf menv ch pl))) ∧
    (∀ p, (walk msg).find? isPlainNonAttachment = some p →
        isPlainNonAttachment p = true) ∧
    ((walk msg).find? isPlainNonAttachment = none →
        parse_email_body menv msg = Except.ok none) := by
  cases msg with
  | leaf ct cd ch pl => simp [MimeMsg.isMultipart] at hm
  | multipart ct cd cs =>
    refine ⟨?_, ?_, ?_⟩
    · intro ct' cd' ch' pl' hfind
      simp only [parse_email_body, hfind, tryDecode]
    · intro p hp
      exact List.find?_some hp
    · intro hfind
      simp only [parse_email_body, hfind]

/-- C3 witness: on `multiEx` (HTML part, then inline text/plain `"hi"`,
then a text/plain attachment) extraction returns `"hi"`. -/
theorem multipart_first_plain_witness :
    parse_email_body stdEnv multiEx = Except.ok (some "hi") := by
  have h := (multipart_first_plain stdEnv multiEx rfl).1 "text/plain"
    (some "inline") none [104, 105] rfl
  have e : decodeLeaf stdEnv none [104, 105] = "hi" := by decide
  rw [e] at h
  exact h

/-- C7: body extraction on a single-part message never propagates a decode
error: it always returns a value; when the declared charset (default
`utf-8`) names a known codec, the result is that codec's lenient
(`errors='ignore'`) decoding of the payload, which substitutes/drops invalid
byte sequences instead of failing; absent is returned exactly when the
charset names no codec at all, i.e. when decoding is structurally
impossible. -/
theorem singlepart_decode_total (menv : MailEnv) (ct : String)
    (cd : Option String) (ch : Option String) (pl : List Nat) :
    (∃ r, parse_email_body menv (MimeMsg.leaf ct cd ch pl) = Except.ok r) ∧
    (∀ d, menv.lookup (ch.getD "utf-8") = some d →
        parse_email_body menv (MimeMsg.leaf ct cd ch pl) =
          Except.ok (some (d pl))) ∧
    (menv.lookup (ch.getD "utf-8") = none →
        parse_email_body menv (MimeMsg.leaf ct cd ch pl) = Except.ok none) := by
  refine ⟨?_, ?_, ?_⟩
  · cases hl : menv.lookup (ch.getD "utf-8") with
    | some d => exact ⟨some (d pl), by simp only [parse_email_body, hl]⟩
    | none => exact ⟨none, by simp only [parse_email_body, hl]⟩
  · intro d hl
    simp only [parse_email_body, hl]
  · intro hl
    simp only [parse_email_body, hl]

/-- C7 witness: a single-part message with no declared charset decodes with
the default codec; payload `"hi"` extracts to `"hi"`. -/
theorem singlepart_decode_total_witness :
    parse_email_body stdEnv (MimeMsg.leaf "text/plain" none none [104, 105]) =
      Except.ok (some "hi") := by
  have h := (singlepart_decode_total stdEnv "text/plain" none none
    [104, 105]).2.1 asciiIgnore rfl
  have e : asciiIgnore [104, 105] = "hi" := by decide
  rw [e] at h
  exact h

/-- C6: the generation client distinguishes the two failure kinds.  For a
message that reaches the generation step (fetched, subject decoded, not
self-sent, nonempty prompt extracted): when the service succeeds but its
response has no usable parts, `get_gemini_response` returns the fixed
placeholder and the iteration still composes a reply carrying exactly that
text; when the service call raises, `get_gemini_response` returns absent and
the iteration composes no reply at all — the message is still marked
seen. -/
theorem gen_block_vs_failure (menv : MailEnv) (cfg : Config) (c : MsgCase)
    (m : PyMsg) (subj p : String)
    (hf : c.fetched = some m)
    (hsub : decode_subject menv m.subjectH = Except.ok subj)
    (hneq : menv.parseaddr m.fromH ≠ cfg.emailAddress)
    (hp : parse_email_body menv m.mime = Except.ok (some p))
    (hpne : p ≠ "") :
    (∀ r, c.gen (pyStrip p) = Except.ok r → r.parts = [] →
      get_gemini_response c.gen (pyStrip p) = some blockedNotice ∧
      processMessage menv cfg c =
        Except.ok { genCalls := [pyStrip p],
                    sent := [send_reply cfg (menv.parseaddr m.fromH) subj
                               m.msgId blockedNotice],
                    markedSeen := true }) ∧
    (c.gen (pyStrip p) = Except.error () →
      get_gemini_response c.gen (pyStrip p) = none ∧
      processMessage menv cfg c =
        Except.ok { genCalls := [pyStrip p], sent := [],
                    markedSeen := true }) := by
  constructor
  · intro r hr hparts
    have hg : get_gemini_response c.gen (pyStrip p) = some blockedNotice := by
      simp [get_gemini_response, hr, hparts]
    refine ⟨hg, ?_⟩
    simp only [processMessage, hf, hsub]
    rw [if_neg hneq]
    simp only [hp]
    rw [if_neg hpne]
    simp only [hg]
    rw [if_neg (by decide : ¬(blockedNotice = ""))]
  · intro hr
    have hg : get_gemini_response c.gen (pyStrip p) = none := by
      simp [get_gemini_response, hr]
    refine ⟨hg, ?_⟩
    simp only [processMessage, hf, hsub]
    rw [if_neg hneq]
    simp only [hp]
    rw [if_neg hpne]
    simp only [hg]

/-- C6 witness: on the healthy message with a blocked (part-less) service
response, the placeholder is returned and a reply carrying it is composed;
on the same message with a raising service call, absent is returned, no
reply is composed, and the message is still marked seen. -/
theorem gen_block_vs_failure_witness :
    (get_gemini_response blockedCase.gen "hi" = some blockedNotice ∧
     processMessage stdEnv agentCfg blockedCase =
       Except.ok { genCalls := ["hi"],
                   sent := [send_reply agentCfg "bob@example.com" "Hello"
                              (some "<x@host>") blockedNotice],
                   markedSeen := true }) ∧
    (get_gemini_response failCase.gen "hi" = none ∧
     processMessage stdEnv agentCfg failCase =
       Except.ok { genCalls := ["hi"], sent := [],
                   markedSeen := true }) := by
  constructor
  · exact (gen_block_vs_failure stdEnv agentCfg blockedCase goodMsg "Hello"
      "hi" rfl rfl (by decide) rfl (by decide)).1 { parts := [] } rfl rfl
  · exact (gen_block_vs_failure stdEnv agentCfg failCase goodMsg "Hello"
      "hi" rfl rfl (by decide) rfl (by decide)).2 rfl

/-- C10: the self-message guard is an exact, case-sensitive comparison.  A
fetched message whose parsed sender address differs from the agent's
configured address only in letter case (equal after lowercasing, unequal as
strings) is not treated as self-sent: with a nonempty extracted prompt and a
successful, non-blocked, nonempty generation the iteration calls generation
and composes a reply to that sender. -/
theorem case_differing_sender_processed (menv : MailEnv) (cfg : Config)
    (c : MsgCase) (m : PyMsg) (subj p : String) (r : GenResponse)
    (hf : c.fetched = some m)
    (hsub : decode_subject menv m.subjectH = Except.ok subj)
    (hneq : menv.parseaddr m.fromH ≠ cfg.emailAddress)
    (_hcase : pyLower (menv.parseaddr m.fromH) = pyLower cfg.emailAddress)
    (hp : parse_email_body menv m.mime = Except.ok (some p))
    (hpne : p ≠ "")
    (hr : c.gen (pyStrip p) = Except.ok r)
    (hparts : r.parts ≠ [])
    (htext : r.text ≠ "") :
    processMessage menv cfg c =
      Except.ok { genCalls := [pyStrip p],
                  sent := [send_reply cfg (menv.parseaddr m.fromH) subj
                             m.msgId r.text],
                  markedSeen := true } := by
  have hie : r.parts.isEmpty = false := by
    rcases hq : r.parts with _ | ⟨a, l⟩
    · exact absurd hq hparts
    · rfl
  have hg : get_gemini_response c.gen (pyStrip p) = some r.text := by
    simp [get_gemini_response, hr, hie]
  simp only [processMessage, hf, hsub]
  rw [if_neg hneq]
  simp only [hp]
  rw [if_neg hpne]
  simp only [hg]
  rw [if_neg htext]

/-- C10 witness: sender `"Agent@Example.COM"` against configured address
`"agent@example.com"`: the guard does not fire, generation is called with
`"hi"` and a reply `"ok"` is composed to that sender. -/
theorem case_differing_sender_processed_witness :
    processMessage stdEnv agentCfg caseCase =
      Except.ok { genCalls := ["hi"],
                  sent := [send_reply agentCfg "Agent@Example.COM" "Hello"
                             (some "<y@host>") "ok"],
                  markedSeen := true } := by
  have h := case_differing_sender_processed stdEnv agentCfg caseCase caseMsg
    "Hello" "hi" { parts := ["ok"] } rfl rfl (by decide) (by decide) rfl
    (by decide) rfl (by decide) (by decide)
  exact h

/-- C8 (amended): body extraction itself does not trim, but every prompt the
loop passes to the generation client is the stripped form of an extracted
body: whenever an iteration records a generation call with argument `s`,
there is a fetched message whose extraction returned some `p` with
`s = pyStrip p`. -/
theorem gen_called_with_stripped (menv : MailEnv) (cfg : Config) (c : MsgCase)
    (o : MsgOutcome) (h : processMessage menv cfg c = Except.ok o)
    (s : String) (hs : s ∈ o.genCalls) :
    ∃ m p, c.fetched = some m ∧
      parse_email_body menv m.mime = Except.ok (some p) ∧ s = pyStrip p := by
  cases hf : c.fetched with
  | none =>
    simp only [processMessage, hf, Except.ok.injEq] at h
    subst h
    simp at hs
  | some m =>
    simp only [processMessage, hf] at h
    cases hd : decode_subject menv m.subjectH with
    | error e =>
      simp only [hd] at h
      exact Except.noConfusion h
    | ok subj =>
      simp only [hd] at h
      by_cases hself : menv.parseaddr m.fromH = cfg.emailAddress
      · rw [if_pos hself] at h
        simp only [Except.ok.injEq] at h
        subst h
        simp at hs
      · rw [if_neg hself] at h
        cases hp : parse_email_body menv m.mime with
        | error e =>
          simp only [hp] at h
          exact Except.noConfusion h
        | ok po =>
          cases po with
          | none =>
            simp only [hp, Except.ok.injEq] at h
            subst h
            simp at hs
          | some p =>
            simp only [hp] at h
            by_cases hpe : p = ""
            · rw [if_pos hpe] at h
              simp only [Except.ok.injEq] at h
              subst h
              simp at hs
            · rw [if_neg hpe] at h
              cases hg : get_gemini_response c.gen (pyStrip p) with
              | none =>
                simp only [hg, Except.ok.injEq] at h
                subst h
                simp at hs
                exact ⟨m, p, rfl, hp, hs⟩
              | some a =>
                simp only [hg] at h
                by_cases hae : a = ""
                · rw [if_pos hae] at h
                  simp only [Except.ok.injEq] at h
                  subst h
                  simp at hs
                  exact ⟨m, p, rfl, hp, hs⟩
                · rw [if_neg hae] at h
                  simp only [Except.ok.injEq] at h
                  subst h
                  simp at hs
                  exact ⟨m, p, rfl, hp, hs⟩

/-- C8 witness: in the healthy run the single generation call's argument
`"hi"` is the stripped form of the extracted body. -/
theorem gen_called_with_stripped_witness :
    ∃ m p, goodCase.fetched = some m ∧
      parse_email_body stdEnv m.mime = Except.ok (some p) ∧
      ("hi" : String) = pyStrip p :=
  gen_called_with_stripped stdEnv agentCfg goodCase
    { genCalls := ["hi"],
      sent := [send_reply agentCfg "bob@example.com" "Hello"
                 (some "<x@host>") "4"],
      markedSeen := true }
    rfl "hi" (by simp)

end EmailAgent
